import Mathlib

/-!
Shallow embedding of `src/main.rs` of `winit-testing-grounds`: a minimal
winit/wgpu program that opens a window, acquires a graphics device, and
repaints the window surface with a solid color that depends on a
cursor-visibility flag.  The external collaborators (winit's event loop and
window, wgpu's adapter/device/surface/queue) are modelled as explicit inputs:
adapter capabilities become a list of formats, the fallible `get_current_texture`
becomes an `Option Frame` input, and the side effects performed on the window,
the GPU queue and the error stream become an explicit `Effect` trace.
Rust `Vec` indexing (`formats[0]`), which panics on an empty vector, is
modelled by returning `none` (a panic) from the enclosing operation.
-/

/-- Texture formats are opaque identifiers here; the program never inspects a
format, it only copies `formats[0]` of the reported capabilities around. -/
abbrev TextureFormat := Nat

/-- `wgpu::SurfaceCapabilities`, restricted to the only field the program
reads: the list of supported formats, first entry preferred. -/
structure SurfaceCapabilities where
  formats : List TextureFormat
  deriving DecidableEq, Repr

/-- `winit::dpi::PhysicalSize<u32>` as returned by `window.inner_size()`. -/
structure PhysicalSize where
  width : Nat
  height : Nat
  deriving DecidableEq, Repr

/-- `wgpu::Color` with `f64` components.  The program only ever writes the
exact literals `0.1, 0.2, 0.4, 1.0` and compares nothing, so the components
are embedded as rationals. -/
structure Color where
  r : ℚ
  g : ℚ
  b : ℚ
  a : ℚ
  deriving DecidableEq, Repr

/-- `wgpu::PresentMode` (the variants the embedding needs). -/
inductive PresentMode where
  | AutoVsync
  | AutoNoVsync
  | Fifo
  | FifoRelaxed
  | Immediate
  | Mailbox
  deriving DecidableEq, Repr

/-- `wgpu::CompositeAlphaMode`. -/
inductive CompositeAlphaMode where
  | Auto
  | Opaque
  | PreMultiplied
  | PostMultiplied
  | Inherit
  deriving DecidableEq, Repr

/-- `wgpu::TextureUsages`.  The program uses a single flag, so the bitflag set
is modelled as an enumeration. -/
inductive TextureUsages where
  | RENDER_ATTACHMENT
  | COPY_SRC
  | COPY_DST
  | TEXTURE_BINDING
  deriving DecidableEq, Repr

/-- `wgpu::SurfaceConfiguration` with the fields the program writes. -/
structure SurfaceConfiguration where
  usage : TextureUsages
  format : TextureFormat
  width : Nat
  height : Nat
  present_mode : PresentMode
  alpha_mode : CompositeAlphaMode
  view_formats : List TextureFormat
  deriving DecidableEq, Repr

/-- `fn configure_surface(surface, device, adapter, window)` from the source.
`caps` stands for `surface.get_capabilities(adapter)` and `window_size` for
`window.inner_size()`.  The Rust code indexes `caps.formats[0]`, which panics
on an empty vector: that case is `none`.  Otherwise it unconditionally calls
`surface.configure` with the descriptor built below, which this embedding
returns. -/
def configure_surface (caps : SurfaceCapabilities) (window_size : PhysicalSize) :
    Option SurfaceConfiguration :=
  match caps.formats with
  | [] => none
  | preferred_format :: _ =>
    some {
      usage := .RENDER_ATTACHMENT
      format := preferred_format
      width := window_size.width
      height := window_size.height
      present_mode := .Fifo
      alpha_mode := .Auto
      view_formats := [] }

/-- A `wgpu::SurfaceTexture` obtained from `surface.get_current_texture()`:
a single-use frame handle, identified by an opaque id. -/
structure Frame where
  id : Nat
  deriving DecidableEq, Repr

/-- `wgpu::LoadOp<Color>`. -/
inductive LoadOp where
  | Clear (color : Color)
  | Load
  deriving DecidableEq, Repr

/-- The GPU-facing operations `State::draw` can perform, in the order it
performs them.  `drawCall` exists so that "the pass issues no draw calls" is a
statement about the trace rather than a vacuity; the embedded program never
emits it. -/
inductive GpuAction where
  | createView (frame : Nat) (format : Option TextureFormat)
  | createCommandEncoder
  | beginRenderPass (view_frame : Nat) (load : LoadOp) (store : Bool)
  | endRenderPass
  | drawCall
  | submit
  | present (frame : Nat)
  deriving DecidableEq, Repr

/-- The one fallible step inside `State::draw`:
`surface.get_current_texture()` failing (surface lost / outdated / timeout). -/
inductive DrawError where
  | SurfaceUnavailable
  deriving DecidableEq, Repr

/-- `struct State`, restricted to the mutable application data; the wgpu and
winit handles it also holds are modelled as explicit inputs of the
operations. -/
structure State where
  cursor_visible : Bool
  deriving DecidableEq, Repr

/-- The `match self.cursor_visible` computing `background_color` in
`State::draw`: dark blue when the cursor is hidden (`false`), green when it is
visible (`true`). -/
def background_color (cursor_visible : Bool) : Color :=
  match cursor_visible with
  | false => { r := 0.1, g := 0.2, b := 0.4, a := 1.0 }
  | true => { r := 0.1, g := 1.0, b := 0.2, a := 1.0 }

/-- `State::draw`.  `acquire` is the outcome of
`self.surface.get_current_texture()` (`none` = error), `caps` is
`self.surface.get_capabilities(&self.adapter)`.  The result is the list of GPU
actions performed plus an optional error; the outer `none` is the panic of
`caps.formats[0]` on an empty list.  On acquisition failure the `?` operator
returns before anything is recorded, so the trace is empty. -/
def State.draw (self : State) (acquire : Option Frame) (caps : SurfaceCapabilities) :
    Option (List GpuAction × Option DrawError) :=
  match acquire with
  | none => some ([], some .SurfaceUnavailable)
  | some next_frame =>
    match caps.formats with
    | [] => none
    | preferred_format :: _ =>
      some ([
        .createView next_frame.id (some preferred_format),
        .createCommandEncoder,
        .beginRenderPass next_frame.id (.Clear (background_color self.cursor_visible)) true,
        .endRenderPass,
        .submit,
        .present next_frame.id], none)

/-- `winit::event::ElementState`. -/
inductive ElementState where
  | Pressed
  | Released
  deriving DecidableEq, Repr

/-- `winit::event::WindowEvent`, restricted to the variants the program
matches on plus `Focused` as a representative of the ones falling into the
catch-all arm. -/
inductive WindowEvent where
  | MouseInput (state : ElementState)
  | CursorMoved
  | Resized (size : PhysicalSize)
  | ScaleFactorChanged
  | CloseRequested
  | Focused (focus : Bool)
  deriving DecidableEq, Repr

/-- `winit::event::Event`, restricted likewise; `MainEventsCleared` represents
the events falling into the outer catch-all arm. -/
inductive Event where
  | windowEvent (event : WindowEvent)
  | RedrawRequested
  | MainEventsCleared
  deriving DecidableEq, Repr

/-- `winit::event_loop::ControlFlow` (winit 0.28): the loop keeps running
under `Poll`/`Wait` and stops with the given process exit code under
`ExitWithCode`. -/
inductive ControlFlow where
  | Poll
  | Wait
  | ExitWithCode (code : Int)
  deriving DecidableEq, Repr

/-- `ControlFlow::Exit`, the associated constant equal to `ExitWithCode(0)`. -/
def ControlFlow.Exit : ControlFlow := .ExitWithCode 0

/-- Whether this control-flow value stops the event loop. -/
def ControlFlow.stopsLoop : ControlFlow → Bool
  | .ExitWithCode _ => true
  | _ => false

/-- The observable side effects one event-loop iteration can perform:
calls on the window, the surface configure, the GPU actions of a draw, the
`eprintln!` of the error branch, and the `dbg!` output. -/
inductive Effect where
  | setCursorVisible (visible : Bool)
  | requestRedraw
  | configureSurface (config : SurfaceConfiguration)
  | gpu (action : GpuAction)
  | logError (message : String)
  | dbgOutput (value : Bool)
  deriving DecidableEq, Repr

/-- One iteration of the closure passed to `event_loop.run` in `fn run`.
`flow` is the current `ControlFlow`, `acquire` and `caps` feed a possible
`State::draw`, `window_size` feeds a possible `configure_surface` (the
`Resized` payload is ignored by the source, which re-reads
`window.inner_size()`).  Returns the new state, the new control flow and the
effect trace; `none` is a panic (empty format list indexed by
`configure_surface` or `State::draw`).  The trailing `if let Err` of the
source becomes the error arms: the error is printed and the flow set to
`ExitWithCode(1)`. -/
def run_iteration (state : State) (flow : ControlFlow) (event : Event)
    (acquire : Option Frame) (caps : SurfaceCapabilities) (window_size : PhysicalSize) :
    Option (State × ControlFlow × List Effect) :=
  match event with
  | .windowEvent (.MouseInput .Pressed) =>
    let cv := !state.cursor_visible
    some ({ state with cursor_visible := cv }, flow,
      [.setCursorVisible cv, .requestRedraw, .dbgOutput cv])
  | .windowEvent .CursorMoved =>
    some ({ state with cursor_visible := true }, flow,
      [.setCursorVisible true, .requestRedraw, .dbgOutput true])
  | .windowEvent (.Resized _) | .windowEvent .ScaleFactorChanged =>
    match configure_surface caps window_size with
    | none => none
    | some config => some (state, flow, [.configureSurface config])
  | .windowEvent .CloseRequested =>
    some (state, ControlFlow.Exit, [])
  | .RedrawRequested =>
    match state.draw acquire caps with
    | none => none
    | some (trace, none) => some (state, flow, trace.map .gpu)
    | some (trace, some _) =>
      some (state, .ExitWithCode 1,
        trace.map .gpu ++ [.logError "Could not draw next frame"])
  | _ => some (state, flow, [])

/-- `wgpu::PowerPreference`. -/
inductive PowerPreference where
  | None
  | LowPower
  | HighPerformance
  deriving DecidableEq, Repr

/-- `wgpu::RequestAdapterOptions`; `compatible_surface` records whether a
surface was passed (`Some(&surface)` in the source). -/
structure RequestAdapterOptions where
  power_preference : PowerPreference
  force_fallback_adapter : Bool
  compatible_surface : Bool
  deriving DecidableEq, Repr

/-- Optional wgpu capability features; the program only ever uses the empty
set, so features are opaque identifiers in a list. -/
abbrev Features := List Nat

/-- `wgpu::Features::empty()`. -/
def Features.empty : Features := []

/-- `wgpu::Limits`, reduced to the named profiles the API offers;
the program requests `downlevel_webgl2_defaults`. -/
inductive Limits where
  | default
  | downlevel_defaults
  | downlevel_webgl2_defaults
  deriving DecidableEq, Repr

/-- `wgpu::DeviceDescriptor` with the fields the program writes. -/
structure DeviceDescriptor where
  label : Option String
  features : Features
  limits : Limits
  deriving DecidableEq, Repr

/-- The `RequestAdapterOptions` literal passed to `instance.request_adapter`
in `State::new`. -/
def adapter_options : RequestAdapterOptions :=
  { power_preference := .LowPower
    force_fallback_adapter := false
    compatible_surface := true }

/-- The `DeviceDescriptor` literal passed to `adapter.request_device` in
`State::new`. -/
def device_descriptor : DeviceDescriptor :=
  { label := none
    features := Features.empty
    limits := .downlevel_webgl2_defaults }

/-- The failure cases of `State::new`, in source order: `Window::new(..)?`,
`instance.create_surface(..)?`, the `context("Found no appropiate adapter")`
on `request_adapter` returning `None`, and the
`context("Found no appropiate device")` on `request_device` failing. -/
inductive InitError where
  | WindowCreation
  | SurfaceCreation
  | NoAdapterFound
  | NoDeviceFound
  deriving DecidableEq, Repr

/-- The message `eprintln!("{err}")` in `main` would print for each
initialization error: for the adapter/device cases these are the `context`
strings of the source; the window/surface messages are platform-dependent
winit/wgpu messages, modelled abstractly. -/
def InitError.message : InitError → String
  | .WindowCreation => "os error: could not create window"
  | .SurfaceCreation => "could not create surface"
  | .NoAdapterFound => "Found no appropiate adapter"
  | .NoDeviceFound => "Found no appropiate device"

/-- The environment `State::new` runs against: whether window and surface
creation succeed, how the instance answers `request_adapter` for given
options, how the adapter answers `request_device` for a given descriptor, and
the surface capabilities and window size feeding the initial
`configure_surface`. -/
structure InitEnv where
  window_ok : Bool
  surface_ok : Bool
  adapter_respond : RequestAdapterOptions → Bool
  device_respond : DeviceDescriptor → Bool
  caps : SurfaceCapabilities
  window_size : PhysicalSize

/-- `State::new`.  Follows the source order: create window, create surface,
request adapter with `adapter_options`, request device with
`device_descriptor`, then `configure_surface`.  Returns the initial `State`
(`cursor_visible = false`) together with the initial surface configuration;
the outer `none` is the panic of `configure_surface` on an empty format
list. -/
def State.new (env : InitEnv) : Option (Except InitError (State × SurfaceConfiguration)) :=
  if env.window_ok = false then some (.error .WindowCreation)
  else if env.surface_ok = false then some (.error .SurfaceCreation)
  else if env.adapter_respond adapter_options = false then some (.error .NoAdapterFound)
  else if env.device_respond device_descriptor = false then some (.error .NoDeviceFound)
  else
    match configure_surface env.caps env.window_size with
    | none => none
    | some config => some (.ok ({ cursor_visible := false }, config))

/-- What `fn main` observably does up to entering the event loop. -/
inductive MainOutcome where
  | exited (code : Int) (printed : Option String)
  | runningLoop (initial : State) (initialConfig : SurfaceConfiguration)
  | panicAbort
  deriving DecidableEq, Repr

/-- `fn main`: on an `Err` from `run` (here, from `State::new`, since
`event_loop.run` never returns) it prints the error to the error stream and
calls `std::process::exit(1)`; otherwise the event loop is entered. -/
def main_outcome (env : InitEnv) : MainOutcome :=
  match State.new env with
  | none => .panicAbort
  | some (.error e) => .exited 1 (some e.message)
  | some (.ok (s, config)) => .runningLoop s config

/-- The clear colors appearing in a GPU action trace, in order. -/
def clearColors (trace : List GpuAction) : List Color :=
  trace.filterMap fun action =>
    match action with
    | .beginRenderPass _ (.Clear c) _ => some c
    | _ => none

/-- A concrete initialization environment in which the instance reports no
compatible adapter. -/
def no_adapter_env : InitEnv :=
  { window_ok := true
    surface_ok := true
    adapter_respond := fun _ => false
    device_respond := fun _ => false
    caps := ⟨[1]⟩
    window_size := { width := 100, height := 100 } }

/-- A concrete initialization environment in which an adapter is found but
device negotiation fails. -/
def no_device_env : InitEnv :=
  { window_ok := true
    surface_ok := true
    adapter_respond := fun _ => true
    device_respond := fun _ => false
    caps := ⟨[1]⟩
    window_size := { width := 100, height := 100 } }

/-- Helper: a successful draw's trace carries exactly one clear color, the
`background_color` of the state's `cursor_visible` flag. -/
lemma clearColors_of_draw_success (s : State) (acquire : Option Frame)
    (caps : SurfaceCapabilities) (trace : List GpuAction)
    (h : s.draw acquire caps = some (trace, none)) :
    clearColors trace = [background_color s.cursor_visible] := by
  match acquire with
  | none => simp [State.draw] at h
  | some f =>
    simp only [State.draw] at h
    cases hf : caps.formats with
    | nil => rw [hf] at h; cases h
    | cons fmt rest =>
      rw [hf] at h
      simp only [Option.some.injEq, Prod.mk.injEq, and_true] at h
      subst h
      rfl

/-- Helper: the two background colors differ (dark blue for hidden cursor,
green for visible). -/
lemma background_color_injective (b : Bool) :
    background_color (!b) ≠ background_color b := by
  cases b <;>
    · simp only [background_color, Bool.not_false, Bool.not_true, ne_eq,
        Color.mk.injEq, not_and]
      norm_num

/-- C1: every successful `configure_surface` writes a descriptor whose width
and height are the window's current inner size, whose format is the first
entry of the adapter-reported supported-format list, with usage =
render-target, present mode = Fifo, composite alpha = automatic and an empty
extra-view-formats list. -/
theorem configure_surface_success_spec (caps : SurfaceCapabilities)
    (size : PhysicalSize) (config : SurfaceConfiguration)
    (h : configure_surface caps size = some config) :
    config.width = size.width ∧ config.height = size.height ∧
    caps.formats.head? = some config.format ∧
    config.usage = .RENDER_ATTACHMENT ∧
    config.present_mode = .Fifo ∧
    config.alpha_mode = .Auto ∧
    config.view_formats = [] := by
  cases hf : caps.formats with
  | nil => simp [configure_surface, hf] at h
  | cons preferred rest =>
    simp only [configure_surface, hf] at h
    cases h
    simp

/-- Witness for C1 at capabilities `[5, 9]` and window size 800 × 600. -/
theorem configure_surface_success_spec_witness :
    ({ width := 800, height := 600 } : PhysicalSize).width = 800 ∧
    (⟨[5, 9]⟩ : SurfaceCapabilities).formats.head? = some 5 := by
  have h := configure_surface_success_spec ⟨[5, 9]⟩ { width := 800, height := 600 }
    { usage := .RENDER_ATTACHMENT, format := 5, width := 800, height := 600,
      present_mode := .Fifo, alpha_mode := .Auto, view_formats := [] } rfl
  exact ⟨rfl, h.2.2.1⟩

/-- C3: the claim says a zero-dimension configure is rejected or skipped,
but `configure_surface` has no size guard at all: with a minimized window
(inner size 0 × 600) it still configures the surface, writing width 0 into
the descriptor. -/
theorem configure_surface_zero_size_not_rejected :
    configure_surface ⟨[7]⟩ { width := 0, height := 600 } =
      some { usage := .RENDER_ATTACHMENT, format := 7, width := 0, height := 600,
             present_mode := .Fifo, alpha_mode := .Auto, view_formats := [] } := rfl

/-- C2 counterexample: a redraw-request whose frame acquisition fails does
not leave the loop running — the trailing error branch of `run` sets the
control flow to `ExitWithCode(1)`, which stops the event loop, so the process
is not responsive to any further event. -/
theorem redraw_failure_exits_counterexample :
    run_iteration { cursor_visible := false } .Wait .RedrawRequested none
        ⟨[0]⟩ { width := 640, height := 480 } =
      some ({ cursor_visible := false }, .ExitWithCode 1,
        [.logError "Could not draw next frame"]) ∧
    (ControlFlow.ExitWithCode 1).stopsLoop = true ∧
    ControlFlow.ExitWithCode 1 ≠ ControlFlow.Wait := by
  refine ⟨rfl, rfl, ?_⟩
  simp

/-- C2 amended: after a redraw-request whose frame acquisition fails, the
error (with the context "Could not draw next frame") is logged to the error
stream and the controller transitions to `ExitWithCode(1)`, stopping the
event loop — in this program a render error is fatal, not merely logged. -/
theorem redraw_failure_logs_and_exits (s : State) (flow : ControlFlow)
    (caps : SurfaceCapabilities) (size : PhysicalSize) :
    run_iteration s flow .RedrawRequested none caps size =
      some (s, .ExitWithCode 1, [.logError "Could not draw next frame"]) ∧
    (ControlFlow.ExitWithCode 1).stopsLoop = true := by
  exact ⟨rfl, rfl⟩

/-- C4 counterexample: an event other than the close signal does transition
the controller out of Running — a redraw-request whose render fails moves the
flow from `Poll` to `ExitWithCode(1)` (and that event is not
`CloseRequested`). -/
theorem non_close_exit_counterexample :
    run_iteration { cursor_visible := true } .Poll .RedrawRequested none
        ⟨[3]⟩ { width := 800, height := 600 } =
      some ({ cursor_visible := true }, .ExitWithCode 1,
        [.logError "Could not draw next frame"]) ∧
    Event.RedrawRequested ≠ Event.windowEvent .CloseRequested ∧
    ControlFlow.ExitWithCode 1 ≠ ControlFlow.Poll := by
  refine ⟨rfl, ?_, ?_⟩ <;> simp

/-- C4 amended: for every controller state (both values of `cursor_visible`),
a close signal transitions the controller to `ControlFlow::Exit` =
`ExitWithCode(0)` (stopping the loop with process exit code 0); and the only
other event that moves the control flow at all is a redraw-request whose
render fails, which exits with code 1 — every remaining event leaves the flow
unchanged. -/
theorem close_always_exits_amended :
    (∀ (s : State) (flow : ControlFlow) (acquire : Option Frame)
        (caps : SurfaceCapabilities) (size : PhysicalSize),
      run_iteration s flow (.windowEvent .CloseRequested) acquire caps size =
        some (s, ControlFlow.Exit, []) ∧
      ControlFlow.Exit = .ExitWithCode 0 ∧ ControlFlow.Exit.stopsLoop = true) ∧
    (∀ (s : State) (flow : ControlFlow) (event : Event) (acquire : Option Frame)
        (caps : SurfaceCapabilities) (size : PhysicalSize)
        (r : State × ControlFlow × List Effect),
      run_iteration s flow event acquire caps size = some r →
      r.2.1 ≠ flow →
      (event = .windowEvent .CloseRequested ∧ r.2.1 = .ExitWithCode 0) ∨
      (event = .RedrawRequested ∧ r.2.1 = .ExitWithCode 1)) := by
  constructor
  · intro s flow acquire caps size
    exact ⟨rfl, rfl, rfl⟩
  · intro s flow event acquire caps size r hr hflow
    match event with
    | .windowEvent (.MouseInput .Pressed) =>
      cases hr; exact absurd rfl hflow
    | .windowEvent (.MouseInput .Released) =>
      cases hr; exact absurd rfl hflow
    | .windowEvent .CursorMoved =>
      cases hr; exact absurd rfl hflow
    | .windowEvent (.Resized _) | .windowEvent .ScaleFactorChanged =>
      simp only [run_iteration] at hr
      cases hconf : configure_surface caps size <;> rw [hconf] at hr
      · cases hr
      · cases hr; exact absurd rfl hflow
    | .windowEvent .CloseRequested =>
      cases hr; exact Or.inl ⟨rfl, rfl⟩
    | .windowEvent (.Focused _) =>
      cases hr; exact absurd rfl hflow
    | .RedrawRequested =>
      simp only [run_iteration] at hr
      match hdraw : State.draw s acquire caps with
      | none => rw [hdraw] at hr; cases hr
      | some (trace, none) => rw [hdraw] at hr; cases hr; exact absurd rfl hflow
      | some (trace, some e) => rw [hdraw] at hr; cases hr; exact Or.inr ⟨rfl, rfl⟩
    | .MainEventsCleared =>
      cases hr; exact absurd rfl hflow

/-- Witness for C4 amended: at the concrete hidden-cursor state, a close
signal while polling exits with code 0; and instantiating the second conjunct
at a concrete failing redraw shows the resulting flow change is classified as
the redraw-failure exit with code 1. -/
theorem close_always_exits_amended_witness :
    run_iteration { cursor_visible := false } .Poll (.windowEvent .CloseRequested)
        none ⟨[2]⟩ { width := 320, height := 200 } =
      some ({ cursor_visible := false }, ControlFlow.Exit, []) ∧
    ((Event.RedrawRequested = Event.windowEvent .CloseRequested ∧
        ControlFlow.ExitWithCode 1 = .ExitWithCode 0) ∨
      (Event.RedrawRequested = Event.RedrawRequested ∧
        ControlFlow.ExitWithCode 1 = .ExitWithCode 1)) := by
  constructor
  · exact (close_always_exits_amended.1 { cursor_visible := false } .Poll none
      ⟨[2]⟩ { width := 320, height := 200 }).1
  · exact close_always_exits_amended.2 { cursor_visible := false } .Poll
      .RedrawRequested none ⟨[2]⟩ { width := 320, height := 200 }
      ({ cursor_visible := false }, .ExitWithCode 1,
        [.logError "Could not draw next frame"]) rfl (by simp)

/-- C5: a successful `State::draw` performs, in order: create a view of the
acquired frame's texture with the format explicitly pinned (`some` the first
reported capability format, never `none` = inferred), create the command
encoder, record exactly one render pass on that view with load =
`Clear(background_color cursor_visible)` and store = true, end the pass, with
no draw call ever issued, submit, and finally present the acquired frame
handle exactly once, as the last action. -/
theorem draw_success_trace_spec (s : State) (f : Frame)
    (caps : SurfaceCapabilities) (fmt : TextureFormat) (rest : List TextureFormat)
    (h : caps.formats = fmt :: rest) :
    s.draw (some f) caps =
      some ([.createView f.id (some fmt),
             .createCommandEncoder,
             .beginRenderPass f.id (.Clear (background_color s.cursor_visible)) true,
             .endRenderPass,
             .submit,
             .present f.id], none) ∧
    (∀ trace : List GpuAction, s.draw (some f) caps = some (trace, none) →
      GpuAction.drawCall ∉ trace ∧
      (trace.filter fun a =>
        match a with | .beginRenderPass .. => true | _ => false).length = 1 ∧
      trace.getLast? = some (.present f.id) ∧
      (trace.filter fun a =>
        match a with | .present _ => true | _ => false).length = 1) := by
  constructor
  · simp only [State.draw, h]
  · intro trace htrace
    simp only [State.draw, h, Option.some.injEq, Prod.mk.injEq, and_true] at htrace
    subst htrace
    refine ⟨?_, rfl, rfl, rfl⟩
    simp

/-- Witness for C5 at the hidden-cursor state, frame 4, formats `[6, 8]`. -/
theorem draw_success_trace_spec_witness :
    State.draw { cursor_visible := false } (some ⟨4⟩) ⟨[6, 8]⟩ =
      some ([.createView 4 (some 6),
             .createCommandEncoder,
             .beginRenderPass 4 (.Clear (background_color false)) true,
             .endRenderPass,
             .submit,
             .present 4], none) :=
  (draw_success_trace_spec { cursor_visible := false } ⟨4⟩ ⟨[6, 8]⟩ 6 [8] rfl).1

/-- C6: if frame acquisition fails, `State::draw` records nothing and in
particular never presents (the handle is dropped with an empty trace); in any
failing draw no `present` appears in the trace; and a successful draw
presents exactly the acquired frame, as the last action, after view creation,
encoder creation, the render pass and the submit — so the next redraw, given
the fresh frame the surface supplies, presents that fresh frame. -/
theorem draw_failure_no_present :
    (∀ (s : State) (caps : SurfaceCapabilities),
      s.draw none caps = some ([], some .SurfaceUnavailable)) ∧
    (∀ (s : State) (acquire : Option Frame) (caps : SurfaceCapabilities)
        (trace : List GpuAction) (e : DrawError),
      s.draw acquire caps = some (trace, some e) →
      ∀ i : Nat, GpuAction.present i ∉ trace) ∧
    (∀ (s : State) (acquire : Option Frame) (caps : SurfaceCapabilities)
        (trace : List GpuAction),
      s.draw acquire caps = some (trace, none) →
      ∃ f : Frame, acquire = some f ∧
        trace.getLast? = some (.present f.id) ∧
        (∀ i : Nat, GpuAction.present i ∈ trace → i = f.id) ∧
        GpuAction.present f.id ∉ trace.dropLast ∧
        GpuAction.submit ∈ trace.dropLast) := by
  refine ⟨fun s caps => rfl, ?_, ?_⟩
  · intro s acquire caps trace e hdraw i
    match acquire with
    | none =>
      simp only [State.draw, Option.some.injEq, Prod.mk.injEq] at hdraw
      rw [← hdraw.1]
      simp
    | some f =>
      simp only [State.draw] at hdraw
      cases hf : caps.formats <;> rw [hf] at hdraw <;> simp at hdraw
  · intro s acquire caps trace hdraw
    match acquire with
    | none => simp [State.draw] at hdraw
    | some f =>
      refine ⟨f, rfl, ?_⟩
      simp only [State.draw] at hdraw
      cases hf : caps.formats with
      | nil => rw [hf] at hdraw; cases hdraw
      | cons fmt rest =>
        rw [hf] at hdraw
        simp only [Option.some.injEq, Prod.mk.injEq, and_true] at hdraw
        subst hdraw
        refine ⟨rfl, ?_, ?_, ?_⟩
        · intro i hi
          simp only [List.mem_cons, List.not_mem_nil, or_false] at hi
          rcases hi with h | h | h | h | h | h <;> first
            | (cases h; rfl)
            | (exact absurd h (by simp))
        · simp
        · simp

/-- Witness for C6: the second conjunct applied at a failing acquisition
(frame id 0 is not presented), the third at a fresh frame 11 after such a
failure. -/
theorem draw_failure_no_present_witness :
    GpuAction.present 0 ∉ ([] : List GpuAction) ∧
    ∃ f : Frame, (some ⟨11⟩ : Option Frame) = some f ∧
      ([GpuAction.createView 11 (some 6),
        .createCommandEncoder,
        .beginRenderPass 11 (.Clear (background_color true)) true,
        .endRenderPass,
        .submit,
        .present 11].getLast? = some (.present f.id)) ∧
      (∀ i : Nat, GpuAction.present i ∈
        [GpuAction.createView 11 (some 6),
         .createCommandEncoder,
         .beginRenderPass 11 (.Clear (background_color true)) true,
         .endRenderPass,
         .submit,
         .present 11] → i = f.id) ∧
      GpuAction.present f.id ∉
        [GpuAction.createView 11 (some 6),
         .createCommandEncoder,
         .beginRenderPass 11 (.Clear (background_color true)) true,
         .endRenderPass,
         .submit,
         .present 11].dropLast ∧
      GpuAction.submit ∈
        [GpuAction.createView 11 (some 6),
         .createCommandEncoder,
         .beginRenderPass 11 (.Clear (background_color true)) true,
         .endRenderPass,
         .submit,
         .present 11].dropLast := by
  constructor
  · exact draw_failure_no_present.2.1 { cursor_visible := true } none ⟨[6]⟩ []
      .SurfaceUnavailable rfl 0
  · exact draw_failure_no_present.2.2 { cursor_visible := true } (some ⟨11⟩)
      ⟨[6]⟩ _ rfl

/-- C7: the clear color of a render is a deterministic pure function of
`cursor_visible` alone — any two successful draws from states with equal
`cursor_visible` put the identical single clear color into their traces,
namely `background_color cursor_visible` — and the color for a hidden cursor
differs from the color for a visible one. -/
theorem clear_color_deterministic :
    (∀ (s1 s2 : State) (a1 a2 : Option Frame) (c1 c2 : SurfaceCapabilities)
        (t1 t2 : List GpuAction),
      s1.cursor_visible = s2.cursor_visible →
      s1.draw a1 c1 = some (t1, none) →
      s2.draw a2 c2 = some (t2, none) →
      clearColors t1 = clearColors t2 ∧
      clearColors t1 = [background_color s1.cursor_visible]) ∧
    background_color false ≠ background_color true := by
  constructor
  · intro s1 s2 a1 a2 c1 c2 t1 t2 hcv h1 h2
    have e1 := clearColors_of_draw_success s1 a1 c1 t1 h1
    have e2 := clearColors_of_draw_success s2 a2 c2 t2 h2
    rw [e1, e2, hcv]
    exact ⟨rfl, rfl⟩
  · have := background_color_injective false
    simpa using this.symm

/-- Witness for C7: two successful draws with the cursor hidden, on different
frames and different capability lists, record the same clear colors. -/
theorem clear_color_deterministic_witness :
    clearColors [.createView 0 (some 5),
                 .createCommandEncoder,
                 .beginRenderPass 0 (.Clear (background_color false)) true,
                 .endRenderPass,
                 .submit,
                 .present 0] =
      clearColors [.createView 1 (some 9),
                   .createCommandEncoder,
                   .beginRenderPass 1 (.Clear (background_color false)) true,
                   .endRenderPass,
                   .submit,
                   .present 1] :=
  (clear_color_deterministic.1 { cursor_visible := false } { cursor_visible := false }
    (some ⟨0⟩) (some ⟨1⟩) ⟨[5]⟩ ⟨[9, 5]⟩ _ _ rfl rfl rfl).1

/-- C8: a pointer-button press negates `cursor_visible`, mirrors the flag to
the window and requests a redraw; a second press restores the original state
(involution); and the clear colors of successful draws performed after the
first and after the second press differ. -/
theorem mouse_press_involution (s : State) (flow : ControlFlow)
    (acquire : Option Frame) (caps : SurfaceCapabilities) (size : PhysicalSize) :
    run_iteration s flow (.windowEvent (.MouseInput .Pressed)) acquire caps size =
      some ({ cursor_visible := !s.cursor_visible }, flow,
        [.setCursorVisible (!s.cursor_visible), .requestRedraw,
         .dbgOutput (!s.cursor_visible)]) ∧
    (run_iteration { cursor_visible := !s.cursor_visible } flow
        (.windowEvent (.MouseInput .Pressed)) acquire caps size).map
      (fun r => r.1) = some s ∧
    (∀ t1 t2 : List GpuAction,
      State.draw { cursor_visible := !s.cursor_visible } acquire caps = some (t1, none) →
      s.draw acquire caps = some (t2, none) →
      clearColors t1 ≠ clearColors t2) := by
  refine ⟨rfl, ?_, ?_⟩
  · cases s
    simp [run_iteration]
  · intro t1 t2 h1 h2
    rw [clearColors_of_draw_success _ _ _ _ h1, clearColors_of_draw_success _ _ _ _ h2]
    simpa using background_color_injective s.cursor_visible

/-- Witness for C8 at the visible-cursor state with frame 2 and formats
`[3]`: the press toggles to hidden and the post-press clear colors differ. -/
theorem mouse_press_involution_witness :
    run_iteration { cursor_visible := true } .Poll
        (.windowEvent (.MouseInput .Pressed)) (some ⟨2⟩) ⟨[3]⟩
        { width := 640, height := 480 } =
      some ({ cursor_visible := false }, .Poll,
        [.setCursorVisible false, .requestRedraw, .dbgOutput false]) ∧
    clearColors [.createView 2 (some 3),
                 .createCommandEncoder,
                 .beginRenderPass 2 (.Clear (background_color false)) true,
                 .endRenderPass,
                 .submit,
                 .present 2] ≠
      clearColors [.createView 2 (some 3),
                   .createCommandEncoder,
                   .beginRenderPass 2 (.Clear (background_color true)) true,
                   .endRenderPass,
                   .submit,
                   .present 2] := by
  have h := mouse_press_involution { cursor_visible := true } .Poll (some ⟨2⟩)
    ⟨[3]⟩ { width := 640, height := 480 }
  exact ⟨h.1, h.2.2 _ _ rfl rfl⟩

/-- C10: a pointer-moved event unconditionally sets `cursor_visible` to true
(not a toggle), mirrors it to the window and requests a redraw; so after a
press hides the cursor from the visible state, a subsequent pointer movement
makes it visible again. -/
theorem cursor_moved_sets_visible (s : State) (flow : ControlFlow)
    (acquire : Option Frame) (caps : SurfaceCapabilities) (size : PhysicalSize) :
    run_iteration s flow (.windowEvent .CursorMoved) acquire caps size =
      some ({ cursor_visible := true }, flow,
        [.setCursorVisible true, .requestRedraw, .dbgOutput true]) ∧
    (run_iteration { cursor_visible := true } flow
        (.windowEvent (.MouseInput .Pressed)) acquire caps size).map
      (fun r => r.1) = some { cursor_visible := false } ∧
    (run_iteration { cursor_visible := false } flow (.windowEvent .CursorMoved)
        acquire caps size).map (fun r => r.1) = some { cursor_visible := true } :=
  ⟨rfl, rfl, rfl⟩

/-- C9: initialization requests an adapter compatible with the presentation
surface, with low-power preference and software fallback disallowed, and a
device with the empty optional-feature set and the downlevel-WebGL2 limits;
if the adapter request fails the result is the distinct `NoAdapterFound`
error, if device negotiation fails it is `NoDeviceFound`, and in either case
`main` prints that error's message to the error stream and exits with
code 1. -/
theorem init_request_spec :
    adapter_options.power_preference = .LowPower ∧
    adapter_options.force_fallback_adapter = false ∧
    adapter_options.compatible_surface = true ∧
    device_descriptor.features = Features.empty ∧
    Features.empty = [] ∧
    device_descriptor.limits = .downlevel_webgl2_defaults ∧
    (∀ env : InitEnv, env.window_ok = true → env.surface_ok = true →
      env.adapter_respond adapter_options = false →
      State.new env = some (.error .NoAdapterFound) ∧
      main_outcome env = .exited 1 (some (InitError.message .NoAdapterFound))) ∧
    (∀ env : InitEnv, env.window_ok = true → env.surface_ok = true →
      env.adapter_respond adapter_options = true →
      env.device_respond device_descriptor = false →
      State.new env = some (.error .NoDeviceFound) ∧
      main_outcome env = .exited 1 (some (InitError.message .NoDeviceFound))) ∧
    InitError.NoAdapterFound ≠ InitError.NoDeviceFound ∧
    InitError.message .NoAdapterFound ≠ InitError.message .NoDeviceFound := by
  refine ⟨rfl, rfl, rfl, rfl, rfl, rfl, ?_, ?_, by simp, by simp [InitError.message]⟩
  · intro env hw hs ha
    have hnew : State.new env = some (.error .NoAdapterFound) := by
      simp [State.new, hw, hs, ha]
    exact ⟨hnew, by simp [main_outcome, hnew]⟩
  · intro env hw hs ha hd
    have hnew : State.new env = some (.error .NoDeviceFound) := by
      simp [State.new, hw, hs, ha, hd]
    exact ⟨hnew, by simp [main_outcome, hnew]⟩

/-- Witness for C9: an environment whose instance reports no adapter yields
`NoAdapterFound` and exit code 1; one whose adapter refuses the device
descriptor yields `NoDeviceFound` and exit code 1. -/
theorem init_request_spec_witness :
    (State.new no_adapter_env = some (.error .NoAdapterFound) ∧
     main_outcome no_adapter_env =
      .exited 1 (some (InitError.message .NoAdapterFound))) ∧
    (State.new no_device_env = some (.error .NoDeviceFound) ∧
     main_outcome no_device_env =
      .exited 1 (some (InitError.message .NoDeviceFound))) := by
  constructor
  · exact init_request_spec.2.2.2.2.2.2.1 no_adapter_env rfl rfl rfl
  · exact init_request_spec.2.2.2.2.2.2.2.1 no_device_env rfl rfl rfl rfl
